import Mathlib

/-!
Verification of the retrieval-augmented QA pipeline (two AWS Lambda modules:
`lambda_functions/ingest_study_material.py` and `lambda_functions/chatbot_query.py`)
against its natural-language specification.

Shallow embedding conventions:
* JSON values are modelled by the inductive `Json`; numbers are carried as
  rationals because no arithmetic is ever performed on them by this code
  (they are only built, passed through, and tested against zero for
  truthiness).
* External services (S3 download, the Bedrock embedding and generation
  endpoints, the OpenSearch index, the PDF and DOCX reader libraries, and
  `json.loads` on a request body) are modelled as oracle parameters: the
  handler logic is a pure function of the event and of what each external
  call would return.
* Python runtime failures that the code can actually hit (calling `.get` on
  a decoded JSON value that is not a dict, joining non-strings) are modelled
  with `Except`; an uncaught exception is an `Except.error` result of the
  handler.
-/

namespace Rag

/-- A JSON value, as produced by `json.loads`. Object fields are kept as an
association list in insertion order; the keys of every object built or decoded
by this code are distinct. -/
inductive Json where
  | null : Json
  | bool (b : Bool) : Json
  | num (q : ℚ) : Json
  | str (s : String) : Json
  | arr (xs : List Json) : Json
  | obj (fields : List (String × Json)) : Json
deriving Repr

/-- Python runtime errors reachable by this code. -/
inductive PyError where
  /-- `AttributeError`: `.get` called on a value that is not a dict. -/
  | attributeError : PyError
  /-- `TypeError`: iterating a non-list, or `str.join` over non-strings. -/
  | typeError : PyError
deriving Repr, DecidableEq

/-- Python `d.get(k, default)`: field lookup with a default, raising
`AttributeError` when `d` is not a dict. -/
def Json.pyGet : Json → String → Json → Except PyError Json
  | .obj fields, k, dflt => .ok ((fields.lookup k).getD dflt)
  | _, _, _ => .error .attributeError

/-- Python `d.get(k)`: field lookup defaulting to `None`. -/
def Json.pyGetNone (j : Json) (k : String) : Except PyError Json :=
  j.pyGet k .null

/-- Python truthiness of a JSON-decoded value (`if not x`). -/
def Json.pyTruthy : Json → Bool
  | .null => false
  | .bool b => b
  | .num q => q ≠ 0
  | .str s => s ≠ ""
  | .arr xs => !xs.isEmpty
  | .obj fields => !fields.isEmpty

/-- The underlying strings of a list of JSON values, when every element is a
string. -/
def asStrings : List Json → Option (List String)
  | [] => some []
  | .str s :: xs => (asStrings xs).map (fun ss => s :: ss)
  | _ :: _ => none

/-- Python `sep.join(xs)` over a list of JSON-decoded values: succeeds with the
intercalation when every element is a string, raises `TypeError` otherwise. -/
def pyJoin (sep : String) (xs : List Json) : Except PyError String :=
  match asStrings xs with
  | some ss => .ok (String.intercalate sep ss)
  | none => .error .typeError

end Rag

namespace Rag.ingest_study_material

/-- `ValueError("Unsupported file type")` raised by `extract_text` for a file
whose name ends in neither `.pdf` nor `.docx`. -/
inductive ExtractError where
  | unsupportedFileType : ExtractError
deriving Repr, DecidableEq

/-- What the external reader libraries would extract from the downloaded file:
`pdfPages` is the list of `page.extract_text()` results PyPDF2 would produce
(`none` for a page whose extraction returns `None`), `docxParagraphs` the list
of paragraph texts python-docx would produce. The code consults only the list
matching the file-name extension. -/
structure FileOracle where
  pdfPages : List (Option String)
  docxParagraphs : List String

/-- Python `file_path.endswith(suffix)`: a character-level suffix test. -/
def pyEndsWith (s suffix : String) : Bool :=
  suffix.data.isSuffixOf s.data

/-- `extract_text(file_path)`: dispatch on the file-name extension.
PDF: per-page `page.extract_text() or ""`, pages joined by `"\n".join`.
DOCX: paragraph texts joined by `"\n".join`.
Anything else: `ValueError` (unsupported file type). -/
def extract_text (fo : FileOracle) (filePath : String) : Except ExtractError String :=
  if pyEndsWith filePath ".pdf" then
    .ok (String.intercalate "\n" (fo.pdfPages.map (fun p => p.getD "")))
  else if pyEndsWith filePath ".docx" then
    .ok (String.intercalate "\n" fo.docxParagraphs)
  else
    .error .unsupportedFileType

/-- `sanitize_id(id_)`: `id_.replace("/", "_")`. The pattern is a single
character, so the replacement is a character map. -/
def sanitize_id (id_ : String) : String :=
  ⟨id_.data.map (fun c => if c = '/' then '_' else c)⟩

/-- One record of the S3 upload notification event:
`record["s3"]["bucket"]["name"]` and `record["s3"]["object"]["key"]`. -/
structure S3Record where
  bucket : String
  key : String
deriving Repr, DecidableEq

/-- `os.path.basename(key)`: the part of the key after its last `/`. The
handler downloads to `tmp_path = os.path.join(tmpdir, os.path.basename(key))`
and extracts from that path, so extension dispatch sees the basename. -/
def baseName (key : String) : String :=
  ⟨(key.data.reverse.takeWhile (fun c => c ≠ '/')).reverse⟩

/-- External calls made by the ingestion handler: `download` is what the
reader libraries would extract from the object downloaded for a given
(bucket, key); `embedPayload` is the decoded Bedrock response payload for a
given request body `{"inputText": text}`. -/
structure IngestOracle where
  download : String → String → FileOracle
  embedPayload : Json → Json

/-- `PyError` or the `ValueError` from `extract_text`, both uncaught. -/
inductive IngestError where
  | extractError (e : ExtractError) : IngestError
  | pyError (e : PyError) : IngestError
deriving Repr, DecidableEq

/-- `embed_text(text)`: POST `{"inputText": text}` to the embedding model and
return `payload.get("embedding")` (so `None` when the field is absent). -/
def embed_text (o : IngestOracle) (text : String) : Except PyError Json :=
  (o.embedPayload (.obj [("inputText", .str text)])).pyGetNone "embedding"

/-- The single PUT issued by `index_embedding`: document id in the request URL
`https://{endpoint}/cert-embeddings/_doc/{safe_id}` and JSON request body. -/
structure IndexWrite where
  docId : String
  body : Json
deriving Repr

/-- `index_embedding(id_, embedding, text)`: PUT the document
`{"vector": embedding, "text": text}` at id `sanitize_id(id_)`. -/
def index_embedding (id_ : String) (embedding : Json) (text : String) : IndexWrite :=
  { docId := sanitize_id id_
    body := .obj [("vector", embedding), ("text", .str text)] }

/-- The body of the `for record in event.get("Records", [])` loop for one
record: download, extract, embed, then index. Any error propagates uncaught. -/
def processRecord (o : IngestOracle) (r : S3Record) : Except IngestError IndexWrite := do
  let fo := o.download r.bucket r.key
  let text ← (extract_text fo (baseName r.key)).mapError .extractError
  let embedding ← (embed_text o text).mapError .pyError
  pure (index_embedding r.key embedding text)

/-- The `for record in event.get("Records", [])` loop: records processed
strictly in order, the first uncaught error aborting the rest. On success,
the ordered list of index writes issued. -/
def processAll (o : IngestOracle) : List S3Record → Except IngestError (List IndexWrite)
  | [] => .ok []
  | r :: rs => do
    let w ← processRecord o r
    let ws ← processAll o rs
    pure (w :: ws)

/-- `handler(event, context)` of `ingest_study_material.py`: process each
record of `event["Records"]` sequentially, then return
`{"status": "processed", "records": len(event.get("Records", []))}`.
The result on success is the ordered list of index writes issued, paired with
the returned JSON object; the first uncaught error aborts the invocation. -/
def handler (o : IngestOracle) (records : List S3Record) :
    Except IngestError (List IndexWrite × Json) := do
  let writes ← processAll o records
  pure (writes, .obj [("status", .str "processed"), ("records", .num records.length)])

/-- Modelled from the spec: the vector index is an external service, reached
only through `PUT {endpoint}/{index}/_doc/{id}`; per the spec, writing an id
that already exists replaces the prior record (upsert), never duplicates it.
The index state is the list of stored (id, document) pairs. -/
def applyWrite (store : List (String × Json)) (w : IndexWrite) : List (String × Json) :=
  (store.filter (fun p => p.1 != w.docId)) ++ [(w.docId, w.body)]

end Rag.ingest_study_material

namespace Rag.chatbot_query

open Rag

/-- External calls made by the query handler: `embedPayload` the decoded
embedding response for a request body, `searchResponse` the decoded OpenSearch
response for a search request body (`r.raise_for_status()` passing),
`generatePayload` the decoded generation response for a request body, and
`strRepr` the Python `str()` rendering of a non-string JSON value interpolated
into an f-string (never exercised by the theorems below, which use string
queries as the code intends). -/
structure QueryOracle where
  embedPayload : Json → Json
  searchResponse : Json → Json
  generatePayload : Json → Json
  strRepr : Json → String

/-- `embed_text(text)` of `chatbot_query.py`; identical to the ingestion
module's copy except that the handler passes it the decoded `query` value. -/
def embed_text (o : QueryOracle) (input : Json) : Except PyError Json :=
  (o.embedPayload (.obj [("inputText", input)])).pyGetNone "embedding"

/-- The search request body built by `search_embeddings(vector)`. -/
def searchRequestBody (vector : Json) : Json :=
  .obj [("size", .num 5),
        ("query", .obj [("knn", .obj [("vector", .obj [("vector", vector), ("k", .num 5)])])]),
        ("_source", .arr [.str "text"])]

/-- `hit.get("_source", {}).get("text", "")` for one hit. -/
def hitText (hit : Json) : Except PyError Json := do
  let src ← hit.pyGet "_source" (.obj [])
  src.pyGet "text" (.str "")

/-- The list comprehension `[hit.get(...) ... for hit in hits]`: each hit in
order, the first error aborting. -/
def hitTexts : List Json → Except PyError (List Json)
  | [] => .ok []
  | h :: hs => do
    let t ← hitText h
    let ts ← hitTexts hs
    pure (t :: ts)

/-- The comprehension applied to the decoded search response after
`hits = r.json().get("hits", {}).get("hits", [])` (iterating a non-list raises
`TypeError`). -/
def searchHitValues (resp : Json) : Except PyError (List Json) := do
  let outer ← resp.pyGet "hits" (.obj [])
  let hits ← outer.pyGet "hits" (.arr [])
  match hits with
  | .arr hs => hitTexts hs
  | _ => .error .typeError

/-- `search_embeddings(vector)`: send `searchRequestBody vector` and extract
the hit texts from the response. -/
def search_embeddings (o : QueryOracle) (vector : Json) : Except PyError (List Json) :=
  searchHitValues (o.searchResponse (searchRequestBody vector))

/-- The canonical well-formed search response carrying the given hit texts in
rank order: `{"hits": {"hits": [{"_source": {"text": t}}, ...]}}`. -/
def mkSearchResponse (texts : List String) : Json :=
  .obj [("hits", .obj [("hits",
    .arr (texts.map (fun t => .obj [("_source", .obj [("text", .str t)])])))])]

/-- The prompt f-string of `generate_answer(question, context)`. -/
def prompt (question ctx : String) : String :=
  "\n\n" ++ ctx ++ "\n\nQuestion: " ++ question ++ "\nAnswer:"

/-- The generation request body:
`{"prompt": prompt, "max_tokens_to_sample": 200}`. -/
def generateRequestBody (question ctx : String) : Json :=
  .obj [("prompt", .str (prompt question ctx)), ("max_tokens_to_sample", .num 200)]

/-- `generate_answer(question, context)`: invoke the generative model and
return `payload.get("completion", "")`. -/
def generate_answer (o : QueryOracle) (question ctx : String) : Except PyError Json :=
  (o.generatePayload (generateRequestBody question ctx)).pyGet "completion" (.str "")

/-- The HTTP response object returned by the query handler; `body` is the JSON
value passed to `json.dumps`. -/
structure HttpResponse where
  statusCode : Nat
  headers : List (String × String)
  body : Json
deriving Repr

/-- The downstream service calls the handler performs, in order. -/
inductive Call where
  | embedCall (input : Json) : Call
  | searchCall (vector : Json) : Call
  | generateCall (question ctx : String) : Call
deriving Repr

/-- The query event, reduced to the one field the handler reads:
`json.loads(event.get("body", "{}"))`, modelled as the outcome of that decode
(`.error` for a `json.JSONDecodeError`, `.ok` with the decoded value
otherwise; an absent body decodes as the empty object). -/
structure QueryEvent where
  bodyJson : Except Unit Json

/-- `handler(event, context)` of `chatbot_query.py`, returning the ordered
list of downstream calls made together with the outcome: the returned HTTP
response, or the uncaught Python error. -/
def handler (o : QueryOracle) (ev : QueryEvent) : List Call × Except PyError HttpResponse :=
  match ev.bodyJson with
  | .error _ => ([], .ok ⟨400, [], .obj [("error", .str "Invalid JSON")]⟩)
  | .ok body =>
    match body.pyGetNone "query" with
    | .error e => ([], .error e)
    | .ok query =>
      if query.pyTruthy = false then
        ([], .ok ⟨400, [], .obj [("error", .str "Missing query")]⟩)
      else
        let questionStr := match query with | .str s => s | v => o.strRepr v
        match embed_text o query with
        | .error e => ([.embedCall query], .error e)
        | .ok embedding =>
          match search_embeddings o embedding with
          | .error e => ([.embedCall query, .searchCall embedding], .error e)
          | .ok chunks =>
            match pyJoin "\n\n" chunks with
            | .error e => ([.embedCall query, .searchCall embedding], .error e)
            | .ok contextStr =>
              match generate_answer o questionStr contextStr with
              | .error e =>
                ([.embedCall query, .searchCall embedding,
                  .generateCall questionStr contextStr], .error e)
              | .ok answer =>
                ([.embedCall query, .searchCall embedding,
                  .generateCall questionStr contextStr],
                 .ok ⟨200, [("Content-Type", "application/json")],
                      .obj [("answer", answer)]⟩)

end Rag.chatbot_query

namespace Rag.Chunker

/-- Splitting a character sequence at whitespace runs, accumulating the
current word in reverse: the recursion behind `tokenize`. -/
def wordsAux : List Char → List Char → List (List Char)
  | [], acc => if acc = [] then [] else [acc.reverse]
  | c :: cs, acc =>
    if c.isWhitespace then
      if acc = [] then wordsAux cs [] else acc.reverse :: wordsAux cs []
    else wordsAux cs (c :: acc)

/-- Modelled from the spec: no chunker exists anywhere under src/ (the
ingestion handler embeds and indexes the whole extracted text, see the
theorems below); the spec describes tokenization as whitespace-splitting,
which is Python `str.split()`: split on whitespace runs, dropping empty
tokens. -/
def tokenize (s : String) : List String :=
  (wordsAux s.data []).map (fun w => ⟨w⟩)

/-- Modelled from the spec: partition a token sequence into consecutive
windows of exactly `C` tokens except possibly the last; window start for
chunk i is `i * C`, window end `min ((i+1) * C) N`. The spec fixes `C > 0`
(500 in the current design); `C = 0` is out of its domain and yields no
chunks here. -/
def chunkTokens : (C : Nat) → List String → List (List String)
  | _, [] => []
  | 0, _ :: _ => []
  | C + 1, t :: ts => (t :: ts).take (C + 1) :: chunkTokens (C + 1) ((t :: ts).drop (C + 1))
termination_by _ toks => toks.length
decreasing_by simp [List.length_drop]; omega

end Rag.Chunker

namespace Rag.Inputs

open Rag Rag.ingest_study_material Rag.chatbot_query

/-- A benign ingestion oracle: every downloaded object reads as a one-page
PDF (or a one-paragraph DOCX) saying "hello world"; every embedding call
returns `{"embedding": [0.1]}`. -/
def ingestOracle1 : IngestOracle where
  download := fun _ _ => ⟨[some "hello world"], ["hello world"]⟩
  embedPayload := fun _ => .obj [("embedding", .arr [.num (1 / 10)])]

/-- A text of 501 whitespace-separated tokens (each `tok`), longer than one
chunk of the chunk size 500 fixed by the spec. -/
def longText : String :=
  ⟨(List.replicate 501 ['t', 'o', 'k', ' ']).flatten⟩

/-- An ingestion oracle whose downloaded object is a DOCX with a single
501-token paragraph. -/
def ingestOracleLong : IngestOracle where
  download := fun _ _ => ⟨[], [longText]⟩
  embedPayload := fun _ => .obj [("embedding", .arr [.num 1])]

/-- A benign query oracle: embedding `[1.0]`, one search hit with text
`ctx`, completion `answer`. -/
def queryOracle1 : QueryOracle where
  embedPayload := fun _ => .obj [("embedding", .arr [.num 1])]
  searchResponse := fun _ => mkSearchResponse ["ctx"]
  generatePayload := fun _ => .obj [("completion", .str "answer")]
  strRepr := fun _ => ""

/-- A two-page PDF oracle, the pages reading `a` and `b`. -/
def ingestOracleTwoPages : IngestOracle where
  download := fun _ _ => ⟨[some "a", some "b"], []⟩
  embedPayload := fun _ => .obj [("embedding", .arr [.num 1])]

end Rag.Inputs

namespace Rag.Chunker

theorem chunkTokens_nil (C : Nat) : chunkTokens C [] = [] := by
  cases C <;> simp [chunkTokens]

theorem chunkTokens_flatten (C : Nat) (toks : List String) :
    (chunkTokens (C + 1) toks).flatten = toks := by
  have key : ∀ (n : Nat) (l : List String), l.length = n →
      (chunkTokens (C + 1) l).flatten = l := by
    intro n
    induction n using Nat.strong_induction_on with
    | _ n ih =>
      intro l hn
      cases l with
      | nil => simp [chunkTokens]
      | cons t ts =>
        have hlt : ((t :: ts).drop (C + 1)).length < n := by
          simp only [List.length_drop, List.length_cons] at *
          omega
        rw [chunkTokens, List.flatten_cons, ih _ hlt _ rfl]
        exact List.take_append_drop _ _
  exact key _ toks rfl

theorem chunkTokens_length (C : Nat) (toks : List String) :
    (chunkTokens (C + 1) toks).length = (toks.length + C) / (C + 1) := by
  have key : ∀ (n : Nat) (l : List String), l.length = n →
      (chunkTokens (C + 1) l).length = (l.length + C) / (C + 1) := by
    intro n
    induction n using Nat.strong_induction_on with
    | _ n ih =>
      intro l hn
      cases l with
      | nil => simp [chunkTokens, Nat.div_eq_of_lt]
      | cons t ts =>
        have hlt : ((t :: ts).drop (C + 1)).length < n := by
          simp only [List.length_drop, List.length_cons] at *; omega
        rw [chunkTokens]
        simp only [List.length_cons, ih _ hlt _ rfl, List.length_drop]
        rcases Nat.lt_or_ge ts.length C with h | h
        · have h1 : ts.length + 1 - (C + 1) + C = C := by omega
          have h2 : (ts.length + 1 + C) / (C + 1) = 1 :=
            Nat.div_eq_of_lt_le (by omega) (by omega)
          rw [h1, Nat.div_eq_of_lt (by omega), h2]
        · have h1 : ts.length + 1 - (C + 1) + C = ts.length := by omega
          have h2 : ts.length + 1 + C = ts.length + (C + 1) := by omega
          rw [h1, h2, Nat.add_div_right _ (Nat.succ_pos C)]
  exact key _ toks rfl

theorem chunkTokens_getElem? (C : Nat) (toks : List String) (i : Nat)
    (hi : i * (C + 1) < toks.length) :
    (chunkTokens (C + 1) toks)[i]? = some ((toks.drop (i * (C + 1))).take (C + 1)) := by
  have key : ∀ (n : Nat) (l : List String) (i : Nat), l.length = n →
      i * (C + 1) < l.length →
      (chunkTokens (C + 1) l)[i]? = some ((l.drop (i * (C + 1))).take (C + 1)) := by
    intro n
    induction n using Nat.strong_induction_on with
    | _ n ih =>
      intro l i hn hi
      cases l with
      | nil => simp at hi
      | cons t ts =>
        rw [chunkTokens]
        cases i with
        | zero => simp
        | succ i =>
          have hmul : (i + 1) * (C + 1) = i * (C + 1) + (C + 1) := by ring
          have hlt : ((t :: ts).drop (C + 1)).length < n := by
            simp only [List.length_drop, List.length_cons] at *; omega
          have hi' : i * (C + 1) < ((t :: ts).drop (C + 1)).length := by
            simp only [List.length_drop, List.length_cons] at *; omega
          rw [List.getElem?_cons_succ, ih _ hlt _ i rfl hi', List.drop_drop]
          have harg : C + 1 + i * (C + 1) = (i + 1) * (C + 1) := by ring
          rw [harg]
  exact key _ toks i rfl hi

/-- Every chunk other than the last holds exactly `C + 1` tokens. -/
theorem chunkTokens_full (C : Nat) (toks : List String) (i : Nat)
    (hi : i + 1 < (chunkTokens (C + 1) toks).length) :
    ∃ c, (chunkTokens (C + 1) toks)[i]? = some c ∧ c.length = C + 1 := by
  rw [chunkTokens_length] at hi
  have hd := (Nat.le_div_iff_mul_le (Nat.succ_pos C)).mp (by omega : i + 2 ≤ (toks.length + C) / (C + 1))
  have e1 : (i + 2) * (C + 1) = i * (C + 1) + 2 * C + 2 := by ring
  rw [Nat.succ_eq_add_one, e1] at hd
  have hlt : i * (C + 1) < toks.length := by omega
  refine ⟨(toks.drop (i * (C + 1))).take (C + 1), chunkTokens_getElem? C toks i hlt, ?_⟩
  simp only [List.length_take, List.length_drop]
  omega

end Rag.Chunker

namespace Rag

theorem asStrings_map_str (texts : List String) :
    asStrings (texts.map Json.str) = some texts := by
  induction texts with
  | nil => rfl
  | cons t ts ih => simp [asStrings, ih]

theorem pyJoin_strings (sep : String) (texts : List String) :
    pyJoin sep (texts.map Json.str) = .ok (String.intercalate sep texts) := by
  rw [pyJoin, asStrings_map_str]

end Rag

namespace Rag.ingest_study_material

theorem processAll_ok_length (o : IngestOracle) :
    ∀ (rs : List S3Record) (ws : List IndexWrite),
      processAll o rs = .ok ws → ws.length = rs.length := by
  intro rs
  induction rs with
  | nil => intro ws h; cases h; rfl
  | cons r rs ih =>
    intro ws h
    rw [processAll] at h
    cases hr : processRecord o r with
    | error e => rw [hr] at h; exact Except.noConfusion h
    | ok w =>
      rw [hr] at h
      cases hs : processAll o rs with
      | error e => rw [hs] at h; exact Except.noConfusion h
      | ok ws' =>
        rw [hs] at h
        have h' : Except.ok (ε := IngestError) (w :: ws') = Except.ok ws := h
        cases h'
        simp [ih ws' hs]

theorem processAll_cons_error (o : IngestOracle) (r : S3Record) (rs : List S3Record)
    (e : IngestError) (hr : processRecord o r = .error e) :
    processAll o (r :: rs) = .error e := by
  rw [processAll, hr]
  rfl

theorem handler_error_of_head (o : IngestOracle) (r : S3Record) (rs : List S3Record)
    (e : IngestError) (hr : processRecord o r = .error e) :
    handler o (r :: rs) = .error e := by
  rw [handler, processAll_cons_error o r rs e hr]
  rfl

theorem applyWrite_lookup (store : List (String × Json)) (w : IndexWrite) :
    (applyWrite store w).lookup w.docId = some w.body := by
  induction store with
  | nil => simp [applyWrite, List.lookup]
  | cons p ps ih =>
    obtain ⟨k, v⟩ := p
    by_cases h : k = w.docId
    · simpa [applyWrite, List.filter_cons, h] using ih
    · have hb : ((k, v).1 != w.docId) = true := by simp [bne, h]
      rw [applyWrite, List.filter_cons, if_pos hb, List.cons_append]
      rw [show ((k, v) :: (ps.filter (fun p => p.1 != w.docId) ++ [(w.docId, w.body)])).lookup w.docId
            = (ps.filter (fun p => p.1 != w.docId) ++ [(w.docId, w.body)]).lookup w.docId from by
        simp [List.lookup, beq_false_of_ne (Ne.symm h)]]
      exact ih

theorem applyWrite_applyWrite (store : List (String × Json)) (w1 w2 : IndexWrite)
    (h : w1.docId = w2.docId) :
    applyWrite (applyWrite store w1) w2 = applyWrite store w2 := by
  rw [applyWrite, applyWrite, applyWrite, List.filter_append, List.filter_filter]
  simp [h, Bool.and_self]

theorem applyWrite_countP (store : List (String × Json)) (w : IndexWrite) :
    (applyWrite store w).countP (fun p => p.1 == w.docId) = 1 := by
  rw [applyWrite, List.countP_append]
  have h0 : (store.filter (fun p => p.1 != w.docId)).countP (fun p => p.1 == w.docId) = 0 := by
    rw [List.countP_eq_zero]
    intro p hp
    have := (List.mem_filter.mp hp).2
    simpa [bne] using this
  simp [h0, List.countP_cons]

end Rag.ingest_study_material

namespace Rag.chatbot_query

theorem hitTexts_mk (texts : List String) :
    hitTexts (texts.map (fun t => Json.obj [("_source", Json.obj [("text", Json.str t)])]))
      = .ok (texts.map Json.str) := by
  induction texts with
  | nil => rfl
  | cons t ts ih =>
    rw [List.map_cons, hitTexts]
    have h1 : hitText (Json.obj [("_source", Json.obj [("text", Json.str t)])])
        = .ok (.str t) := rfl
    rw [h1, ih]
    rfl

theorem searchHitValues_mk (texts : List String) :
    searchHitValues (mkSearchResponse texts) = .ok (texts.map Json.str) := by
  have h : searchHitValues (mkSearchResponse texts)
      = hitTexts (texts.map (fun t => Json.obj [("_source", Json.obj [("text", Json.str t)])])) :=
    rfl
  rw [h, hitTexts_mk]

end Rag.chatbot_query

namespace Rag.Inputs

open Rag.Chunker

theorem wordsAux_replicate_tok (n : Nat) :
    wordsAux ((List.replicate n ['t', 'o', 'k', ' ']).flatten) []
      = List.replicate n ['t', 'o', 'k'] := by
  induction n with
  | zero => rfl
  | succ n ih =>
    show ['t', 'o', 'k'] :: wordsAux ((List.replicate n ['t', 'o', 'k', ' ']).flatten) []
      = List.replicate (n + 1) ['t', 'o', 'k']
    rw [ih]
    rfl

theorem tokenize_longText : tokenize longText = List.replicate 501 "tok" := by
  show (wordsAux ((List.replicate 501 ['t', 'o', 'k', ' ']).flatten) []).map
      (fun w => String.mk w) = _
  rw [wordsAux_replicate_tok, List.map_replicate]

end Rag.Inputs

namespace Rag.Claims

open Rag Rag.ingest_study_material Rag.chatbot_query Rag.Chunker Rag.Inputs

/-- C5: sanitize_id replaces every occurrence of the character '/' with '_'
(character by character over the whole string), maps "folder/file.pdf" to
"folder_file.pdf", and is the identity on every string containing no '/'. -/
theorem C5_sanitize_id :
    sanitize_id "folder/file.pdf" = "folder_file.pdf"
    ∧ (∀ s : String, (sanitize_id s).data = s.data.map (fun c => if c = '/' then '_' else c))
    ∧ (∀ s : String, '/' ∉ s.data → sanitize_id s = s) := by
  refine ⟨rfl, fun s => rfl, fun s h => ?_⟩
  obtain ⟨l⟩ := s
  have hl : l.map (fun c => if c = '/' then '_' else c) = l := by
    induction l with
    | nil => rfl
    | cons c cs ih =>
      have hc : c ≠ '/' := fun hc => h (hc ▸ List.mem_cons_self c cs)
      have hcs : '/' ∉ cs := fun hm => h (List.mem_cons_of_mem _ hm)
      simp only [List.map_cons, if_neg hc, ih hcs]
  show String.mk (l.map _) = String.mk l
  rw [hl]

/-- C5 witness: the theorem applied at the concrete no-slash string "abc". -/
theorem C5_sanitize_id_witness : sanitize_id "abc" = "abc" :=
  C5_sanitize_id.2.2 "abc" (by decide)

/-- C9: the index document id written by index_embedding is sanitize_id of
the object key and of nothing else, hence re-ingesting a key reproduces the
same id; under the upsert semantics of the external index (modelled from the
spec), a second write at the same id replaces the first: the store holds
exactly one record at that id, with the newest body. -/
theorem C9_reingest_idempotent :
    (∀ (key : String) (e e' : Json) (t t' : String),
      (index_embedding key e t).docId = (index_embedding key e' t').docId)
    ∧ (∀ (key : String) (e : Json) (t : String), (index_embedding key e t).docId = sanitize_id key)
    ∧ (∀ (store : List (String × Json)) (w1 w2 : IndexWrite), w1.docId = w2.docId →
        applyWrite (applyWrite store w1) w2 = applyWrite store w2)
    ∧ (∀ (store : List (String × Json)) (w : IndexWrite),
        (applyWrite store w).lookup w.docId = some w.body)
    ∧ (∀ (store : List (String × Json)) (w : IndexWrite),
        (applyWrite store w).countP (fun p => p.1 == w.docId) = 1) :=
  ⟨fun _ _ _ _ _ => rfl, fun _ _ _ => rfl, applyWrite_applyWrite, applyWrite_lookup,
   applyWrite_countP⟩

/-- C9 witness: two writes at the id of key "folder/file.pdf" on the empty
store collapse to the second write. -/
theorem C9_reingest_idempotent_witness :
    applyWrite (applyWrite [] ⟨"folder_file.pdf", .null⟩) ⟨"folder_file.pdf", .bool true⟩
      = applyWrite [] ⟨"folder_file.pdf", .bool true⟩ :=
  C9_reingest_idempotent.2.2.1 [] ⟨"folder_file.pdf", .null⟩ ⟨"folder_file.pdf", .bool true⟩ rfl

/-- C3: the search request body is exactly
{size: 5, query: {knn: {vector: {vector: v, k: 5}}}, _source: ["text"]};
search_embeddings sends it and extracts each hit text of the response in rank
order (for a response with hits carrying the given texts, exactly those
texts, none dropped, none deduplicated); joining a list of extracted texts
with a blank line (two line breaks) yields the context string. -/
theorem C3_search_and_context (v : Json) (texts : List String) (o : QueryOracle) :
    searchRequestBody v
      = .obj [("size", .num 5),
              ("query", .obj [("knn", .obj [("vector", .obj [("vector", v), ("k", .num 5)])])]),
              ("_source", .arr [.str "text"])]
    ∧ search_embeddings o v = searchHitValues (o.searchResponse (searchRequestBody v))
    ∧ searchHitValues (mkSearchResponse texts) = .ok (texts.map Json.str)
    ∧ (texts.map Json.str).length = texts.length
    ∧ pyJoin "\n\n" (texts.map Json.str) = .ok (String.intercalate "\n\n" texts) :=
  ⟨rfl, rfl, searchHitValues_mk texts, texts.length_map Json.str, pyJoin_strings "\n\n" texts⟩

/-- C4: the prompt sent to the generative endpoint is exactly
"\n\n{context}\n\nQuestion: {query}\nAnswer:" with max_tokens_to_sample 200;
the answer is the completion field of the response payload verbatim, and the
empty string (not an error) when the payload has no completion field. -/
theorem C4_generate_answer (question ctx : String) (o : QueryOracle) :
    generateRequestBody question ctx
      = .obj [("prompt", .str ("\n\n" ++ ctx ++ "\n\nQuestion: " ++ question ++ "\nAnswer:")),
              ("max_tokens_to_sample", .num 200)]
    ∧ generate_answer o question ctx
        = (o.generatePayload (generateRequestBody question ctx)).pyGet "completion" (.str "")
    ∧ (∀ fields : List (String × Json),
        o.generatePayload (generateRequestBody question ctx) = .obj fields →
        fields.lookup "completion" = none →
        generate_answer o question ctx = .ok (.str ""))
    ∧ (∀ (fields : List (String × Json)) (ans : Json),
        o.generatePayload (generateRequestBody question ctx) = .obj fields →
        fields.lookup "completion" = some ans →
        generate_answer o question ctx = .ok ans) := by
  refine ⟨rfl, rfl, ?_, ?_⟩
  · intro fields h1 h2
    rw [generate_answer, h1]
    simp [Json.pyGet, h2]
  · intro fields ans h1 h2
    rw [generate_answer, h1]
    simp [Json.pyGet, h2]

/-- C4 witness: applied with the concrete oracle whose generation payload is
{"completion": "answer"}, on question "hi" and context "ctx". -/
theorem C4_generate_answer_witness :
    generate_answer queryOracle1 "hi" "ctx" = .ok (.str "answer") :=
  (C4_generate_answer "hi" "ctx" queryOracle1).2.2.2 [("completion", .str "answer")]
    (.str "answer") rfl rfl

end Rag.Claims

namespace Rag.Claims

open Rag Rag.ingest_study_material Rag.chatbot_query Rag.Chunker Rag.Inputs

/-- C2 counterexample: two concrete requests refute the claim as stated.
With the valid JSON body "[]" (an array, so the query field is missing) the
handler does not return 400 Missing query: body.get raises an uncaught
AttributeError. With the valid JSON body with query present but empty,
downstream calls all able to succeed, the handler returns 400, not 200. -/
theorem C2_counterexample :
    handler queryOracle1 ⟨.ok (.arr [])⟩ = ([], .error .attributeError)
    ∧ handler queryOracle1 ⟨.ok (.obj [("query", .str "")])⟩
        = ([], .ok ⟨400, [], .obj [("error", .str "Missing query")]⟩) :=
  ⟨rfl, rfl⟩

/-- C2 (amended): a malformed JSON body yields 400 with error Invalid JSON;
a valid JSON object body without a query field yields 400 with error Missing
query; a valid JSON object body whose query field is a non-empty string, with
the embedding, search, context join and generation steps succeeding, yields
200 with the answer in the body (a body that is valid JSON but not an object
instead raises an uncaught AttributeError, and an empty query is rejected,
see C10). -/
theorem C2_query_http_contract :
    (∀ o : QueryOracle, handler o ⟨.error ()⟩
        = ([], .ok ⟨400, [], .obj [("error", .str "Invalid JSON")]⟩))
    ∧ (∀ (o : QueryOracle) (fields : List (String × Json)),
        fields.lookup "query" = none →
        handler o ⟨.ok (.obj fields)⟩
          = ([], .ok ⟨400, [], .obj [("error", .str "Missing query")]⟩))
    ∧ (∀ (o : QueryOracle) (s : String) (fields : List (String × Json)) (emb : Json)
        (chunks : List Json) (ctxStr : String) (ans : Json),
        fields.lookup "query" = some (.str s) → s ≠ "" →
        embed_text o (.str s) = .ok emb →
        search_embeddings o emb = .ok chunks →
        pyJoin "\n\n" chunks = .ok ctxStr →
        generate_answer o s ctxStr = .ok ans →
        handler o ⟨.ok (.obj fields)⟩
          = ([.embedCall (.str s), .searchCall emb, .generateCall s ctxStr],
             .ok ⟨200, [("Content-Type", "application/json")], .obj [("answer", ans)]⟩)) := by
  refine ⟨fun o => rfl, ?_, ?_⟩
  · intro o fields h
    have hq : (Json.obj fields).pyGetNone "query" = .ok .null := by
      simp [Json.pyGetNone, Json.pyGet, h]
    simp [chatbot_query.handler, hq, Json.pyTruthy]
  · intro o s fields emb chunks ctxStr ans hf hs he hse hj hg
    have hq : (Json.obj fields).pyGetNone "query" = .ok (.str s) := by
      simp [Json.pyGetNone, Json.pyGet, hf]
    have ht : (Json.str s).pyTruthy = true := by simp [Json.pyTruthy, hs]
    simp [chatbot_query.handler, hq, ht, he, hse, hj, hg]

/-- C2 witness: the amended contract applied to the three concrete requests
of the test suite: a malformed body, the empty object body, and the body with
query "hi" under the concrete oracle (embedding [1.0], one hit "ctx",
completion "answer"). -/
theorem C2_query_http_contract_witness :
    handler queryOracle1 ⟨.error ()⟩
      = ([], .ok ⟨400, [], .obj [("error", .str "Invalid JSON")]⟩)
    ∧ handler queryOracle1 ⟨.ok (.obj [])⟩
      = ([], .ok ⟨400, [], .obj [("error", .str "Missing query")]⟩)
    ∧ handler queryOracle1 ⟨.ok (.obj [("query", .str "hi")])⟩
      = ([.embedCall (.str "hi"), .searchCall (.arr [.num 1]), .generateCall "hi" "ctx"],
         .ok ⟨200, [("Content-Type", "application/json")], .obj [("answer", .str "answer")]⟩) :=
  ⟨C2_query_http_contract.1 queryOracle1,
   C2_query_http_contract.2.1 queryOracle1 [] rfl,
   C2_query_http_contract.2.2 queryOracle1 "hi" [("query", .str "hi")] (.arr [.num 1])
     [.str "ctx"] "ctx" (.str "answer") rfl (by decide) rfl rfl rfl rfl⟩

/-- C10: a valid JSON object body whose query field holds any falsy value
(the empty string, null, false, 0, an empty array or an empty object) is
rejected with 400 and error Missing query, exactly as when the field is
absent, and no downstream call (embedding, search, generation) is made in
either case: the call trace is empty. -/
theorem C10_empty_query_rejected (o : QueryOracle) (v : Json) (hv : v.pyTruthy = false) :
    handler o ⟨.ok (.obj [("query", v)])⟩
      = ([], .ok ⟨400, [], .obj [("error", .str "Missing query")]⟩)
    ∧ handler o ⟨.ok (.obj [])⟩
      = ([], .ok ⟨400, [], .obj [("error", .str "Missing query")]⟩) := by
  constructor
  · have hq : (Json.obj [("query", v)]).pyGetNone "query" = .ok v := by
      simp [Json.pyGetNone, Json.pyGet, List.lookup]
    simp [chatbot_query.handler, hq, hv]
  · rfl

/-- C10 witness: the empty-string query under the concrete oracle. -/
theorem C10_empty_query_rejected_witness :
    handler queryOracle1 ⟨.ok (.obj [("query", .str "")])⟩
      = ([], .ok ⟨400, [], .obj [("error", .str "Missing query")]⟩)
    ∧ handler queryOracle1 ⟨.ok (.obj [])⟩
      = ([], .ok ⟨400, [], .obj [("error", .str "Missing query")]⟩) :=
  C10_empty_query_rejected queryOracle1 (.str "") (by decide)

end Rag.Claims

namespace Rag.Claims

open Rag Rag.ingest_study_material Rag.chatbot_query Rag.Chunker Rag.Inputs

/-- C6 counterexample: a two-page PDF whose pages read "a" and "b" extracts
to "a\nb", not to the separator-free concatenation "ab" the claim states:
the code inserts a newline between consecutive pages. -/
theorem C6_counterexample :
    extract_text (ingestOracleTwoPages.download "b" "doc.pdf") (baseName "doc.pdf")
      = .ok "a\nb"
    ∧ "a\nb" ≠ "ab" :=
  ⟨rfl, by decide⟩

/-- C6 (amended): for a file name ending in ".pdf" the extracted text is the
per-page reader text (a None page read as the empty string) in page order,
joined with a single newline between consecutive pages; for a file name
ending in ".docx" (and not ".pdf"), each paragraph text joined with newlines
in paragraph order; the two-page join is page1 ++ "\n" ++ page2. -/
theorem C6_extract_text (fo : FileOracle) (path : String) :
    (pyEndsWith path ".pdf" = true →
      extract_text fo path
        = .ok (String.intercalate "\n" (fo.pdfPages.map (fun p => p.getD ""))))
    ∧ (pyEndsWith path ".pdf" = false → pyEndsWith path ".docx" = true →
      extract_text fo path = .ok (String.intercalate "\n" fo.docxParagraphs))
    ∧ (∀ a b : String, String.intercalate "\n" [a, b] = a ++ "\n" ++ b) := by
  refine ⟨?_, ?_, fun a b => rfl⟩
  · intro h
    simp [extract_text, h]
  · intro h1 h2
    simp [extract_text, h1, h2]

/-- C6 witness: the amended statement at a one-page PDF named "doc.pdf" and a
two-paragraph DOCX named "doc.docx". -/
theorem C6_extract_text_witness :
    extract_text ⟨[some "hello world"], []⟩ "doc.pdf" = .ok "hello world"
    ∧ extract_text ⟨[], ["p1", "p2"]⟩ "doc.docx" = .ok "p1\np2" :=
  ⟨(C6_extract_text ⟨[some "hello world"], []⟩ "doc.pdf").1 (by decide),
   (C6_extract_text ⟨[], ["p1", "p2"]⟩ "doc.docx").2.1 (by decide) (by decide)⟩

/-- C7 counterexample: a batch of two records, a .txt object followed by a
.pdf object, under an oracle for which the second record would succeed: the
handler raises the unsupported-file-type ValueError on the first record and
the invocation fails as a whole — the second record is never processed and no
status object is returned, contrary to skip-and-continue. -/
theorem C7_counterexample :
    handler ingestOracle1 [⟨"b", "notes.txt"⟩, ⟨"b", "doc.pdf"⟩]
      = .error (.extractError .unsupportedFileType)
    ∧ handler ingestOracle1 [⟨"b", "doc.pdf"⟩]
      = .ok ([⟨"doc.pdf", .obj [("vector", .arr [.num (1 / 10)]), ("text", .str "hello world")]⟩],
             .obj [("status", .str "processed"), ("records", .num 1)]) :=
  ⟨rfl, rfl⟩

/-- C7 (amended): a file whose name ends in neither ".pdf" nor ".docx" makes
extract_text fail with the unsupported-file-type ValueError; the ingestion
handler does not catch it, so the first record with such an object key makes
the whole batch invocation fail with that error — the remaining records are
not processed and nothing is returned. -/
theorem C7_unsupported_file_type (fo : FileOracle) (path : String)
    (h1 : pyEndsWith path ".pdf" = false) (h2 : pyEndsWith path ".docx" = false) :
    extract_text fo path = .error .unsupportedFileType
    ∧ (∀ (o : IngestOracle) (r : S3Record) (rs : List S3Record),
        extract_text (o.download r.bucket r.key) (baseName r.key)
          = .error .unsupportedFileType →
        handler o (r :: rs) = .error (.extractError .unsupportedFileType)) := by
  constructor
  · simp [extract_text, h1, h2]
  · intro o r rs he
    apply handler_error_of_head
    rw [processRecord, he]
    rfl

/-- C7 witness: applied at the path "notes.txt" and at a concrete two-record
batch headed by that object. -/
theorem C7_unsupported_file_type_witness :
    extract_text ⟨[some "hello world"], ["hello world"]⟩ "notes.txt"
      = .error .unsupportedFileType
    ∧ handler ingestOracle1 [⟨"b", "notes.txt"⟩, ⟨"b", "doc.pdf"⟩]
      = .error (.extractError .unsupportedFileType) :=
  ⟨(C7_unsupported_file_type ⟨[some "hello world"], ["hello world"]⟩ "notes.txt"
      (by decide) (by decide)).1,
   (C7_unsupported_file_type (ingestOracle1.download "b" "notes.txt") "notes.txt"
      (by decide) (by decide)).2 ingestOracle1 ⟨"b", "notes.txt"⟩ [⟨"b", "doc.pdf"⟩] rfl⟩

/-- C8 counterexample: a successful one-record ingestion returns the JSON
object with keys "status" and "records" — there is no "recordsProcessed" key
as the claim states; the count 1 sits under "records". -/
theorem C8_counterexample :
    handler ingestOracle1 [⟨"b", "doc.pdf"⟩]
      = .ok ([⟨"doc.pdf", .obj [("vector", .arr [.num (1 / 10)]), ("text", .str "hello world")]⟩],
             .obj [("status", .str "processed"), ("records", .num 1)])
    ∧ ([("status", Json.str "processed"), ("records", Json.num 1)]).lookup "recordsProcessed"
        = none
    ∧ ([("status", Json.str "processed"), ("records", Json.num 1)]).lookup "records"
        = some (.num 1) :=
  ⟨rfl, rfl, rfl⟩

/-- C8 (amended): whenever the handler returns (all records processed without
an uncaught error), the response is exactly the object with status
"processed" and, under the key "records", the number of records of the event;
the number of index writes issued equals that number (so one successful
record gives exactly one index write and a count of 1). -/
theorem C8_handler_response (o : IngestOracle) (records : List S3Record)
    (ws : List IndexWrite) (resp : Json)
    (h : handler o records = .ok (ws, resp)) :
    resp = .obj [("status", .str "processed"), ("records", .num records.length)]
    ∧ ws.length = records.length := by
  cases hp : processAll o records with
  | error e =>
    rw [ingest_study_material.handler, hp] at h
    exact Except.noConfusion h
  | ok ws' =>
    rw [ingest_study_material.handler, hp] at h
    have h' : Except.ok (ε := IngestError)
        (ws', Json.obj [("status", .str "processed"), ("records", .num records.length)])
        = .ok (ws, resp) := h
    cases h'
    exact ⟨rfl, processAll_ok_length o records _ hp⟩

/-- C8 witness: the amended statement at the concrete one-record batch. -/
theorem C8_handler_response_witness :
    (Json.obj [("status", .str "processed"), ("records", .num 1)]
      = .obj [("status", .str "processed"), ("records", .num 1)])
    ∧ ([(⟨"doc.pdf", .obj [("vector", .arr [.num (1 / 10)]), ("text", .str "hello world")]⟩ :
          IndexWrite)]).length = ([(⟨"b", "doc.pdf"⟩ : S3Record)]).length :=
  C8_handler_response ingestOracle1 [⟨"b", "doc.pdf"⟩]
    [⟨"doc.pdf", .obj [("vector", .arr [.num (1 / 10)]), ("text", .str "hello world")]⟩]
    (.obj [("status", .str "processed"), ("records", .num 1)]) rfl

end Rag.Claims

namespace Rag.Claims

open Rag Rag.ingest_study_material Rag.chatbot_query Rag.Chunker Rag.Inputs

/-- C1 counterexample: one DOCX record whose extracted text has 501
whitespace-separated tokens. Chunking with the chunk size 500 of the spec
would produce 2 chunks of at most 500 tokens each, but the handler issues
exactly one index write, whose text is the full 501-token string: the
ingestion pipeline applies no chunking before embedding and indexing. -/
theorem C1_counterexample :
    handler ingestOracleLong [⟨"b", "notes.docx"⟩]
      = .ok ([⟨"notes.docx", .obj [("vector", .arr [.num 1]), ("text", .str longText)]⟩],
             .obj [("status", .str "processed"), ("records", .num 1)])
    ∧ (tokenize longText).length = 501
    ∧ (chunkTokens 500 (tokenize longText)).length = 2 := by
  refine ⟨rfl, ?_, ?_⟩
  · rw [tokenize_longText, List.length_replicate]
  · rw [tokenize_longText, show (500 : Nat) = 499 + 1 from rfl, chunkTokens_length,
        List.length_replicate]

/-- C1 (amended): the chunking algorithm described by the spec (modelled
here, since no chunker exists in the source tree) satisfies, for every chunk
size C > 0 and token sequence: chunk count = ceil(N/C) = (N + C - 1) / C,
chunk i spans tokens i*C to min((i+1)*C, N), every chunk except possibly the
last has exactly C tokens, concatenating the chunks reproduces the token
sequence, and empty input gives zero chunks; the ingestion pipeline, however,
applies no chunking: each successfully processed record produces exactly the
single index write holding its full extracted text and its embedding. -/
theorem C1_chunking (C : Nat) (hC : 0 < C) (toks : List String) :
    (chunkTokens C toks).length = (toks.length + C - 1) / C
    ∧ (chunkTokens C toks).flatten = toks
    ∧ (∀ i, i * C < toks.length →
        (chunkTokens C toks)[i]? = some ((toks.drop (i * C)).take C))
    ∧ (∀ i, i + 1 < (chunkTokens C toks).length →
        ∃ c, (chunkTokens C toks)[i]? = some c ∧ c.length = C)
    ∧ chunkTokens C [] = []
    ∧ (∀ (o : IngestOracle) (r : S3Record) (text : String) (emb : Json),
        extract_text (o.download r.bucket r.key) (baseName r.key) = .ok text →
        embed_text o text = .ok emb →
        processRecord o r = .ok (index_embedding r.key emb text)) := by
  obtain ⟨C, rfl⟩ : ∃ C', C = C' + 1 := ⟨C - 1, by omega⟩
  refine ⟨?_, chunkTokens_flatten C toks, chunkTokens_getElem? C toks,
    chunkTokens_full C toks, chunkTokens_nil _, ?_⟩
  · rw [chunkTokens_length, show toks.length + (C + 1) - 1 = toks.length + C from by omega]
  · intro o r text emb he hb
    have hstep : processRecord o r
        = (embed_text o text).mapError IngestError.pyError >>= fun embedding =>
            pure (index_embedding r.key embedding text) := by
      rw [processRecord, he]
      rfl
    rw [hstep, hb]
    rfl

/-- C1 witness: the amended statement at chunk size 2 over the three-token
sequence a b c, and the no-chunking part at the concrete one-record batch. -/
theorem C1_chunking_witness :
    (chunkTokens 2 ["a", "b", "c"]).length = 2
    ∧ (chunkTokens 2 ["a", "b", "c"]).flatten = ["a", "b", "c"]
    ∧ (chunkTokens 2 ["a", "b", "c"])[0]? = some ["a", "b"]
    ∧ (∃ c, (chunkTokens 2 ["a", "b", "c"])[0]? = some c ∧ c.length = 2)
    ∧ chunkTokens 2 [] = []
    ∧ processRecord ingestOracle1 ⟨"b", "doc.pdf"⟩
        = .ok (index_embedding "doc.pdf" (.arr [.num (1 / 10)]) "hello world") :=
  ⟨(C1_chunking 2 (by decide) ["a", "b", "c"]).1,
   (C1_chunking 2 (by decide) ["a", "b", "c"]).2.1,
   (C1_chunking 2 (by decide) ["a", "b", "c"]).2.2.1 0 (by decide),
   (C1_chunking 2 (by decide) ["a", "b", "c"]).2.2.2.1 0
     (by rw [(C1_chunking 2 (by decide) ["a", "b", "c"]).1]; decide),
   (C1_chunking 2 (by decide) []).2.2.2.2.1,
   (C1_chunking 2 (by decide) []).2.2.2.2.2 ingestOracle1 ⟨"b", "doc.pdf"⟩
     "hello world" (.arr [.num (1 / 10)]) rfl rfl⟩

end Rag.Claims
